import Mathlib

set_option autoImplicit false

/-
  Shallow embedding of the FraudgraphRAG core pipeline
  (src/backend/models/graphrag.py and src/backend/models/gnn.py).

  Graph records mirror the Neo4j driver's view of the store: nodes carry an
  internal integer id, labels and a property map; relationships carry the
  endpoint internal ids, a type string and a property map.  Floats are
  modelled as rationals; the irrational library numerics (GCN normalisation,
  torch.sigmoid, training-mode dropout masks) are parameters of the
  definitions, while everything written in the repository itself is concrete.
-/

namespace FraudGraph

/-- Property values stored on a Neo4j node or relationship. -/
inductive PropVal where
  | str (s : String)
  | int (n : Int)
  | float (q : ℚ)
  | bool (b : Bool)
  deriving DecidableEq, Repr

/-- A Neo4j node record: internal id, labels, property map. -/
structure NodeRec where
  nid : Nat
  labels : List String
  props : List (String × PropVal)
  deriving DecidableEq, Repr

/-- A Neo4j relationship record. -/
structure RelRec where
  startNid : Nat
  endNid : Nat
  relType : String
  props : List (String × PropVal)
  deriving DecidableEq, Repr

/-- The property-graph store behind the Neo4j driver. -/
structure Store where
  nodes : List NodeRec
  rels : List RelRec
  deriving DecidableEq, Repr

/-- `GraphRAG._extract_node_features`: keep the values Python's
`isinstance(v, (int, float))` accepts, converted by `float(...)`, in key
order.  Python booleans are ints, so they contribute `1.0` / `0.0`;
strings are dropped. -/
def extract_node_features (node : NodeRec) : List ℚ :=
  node.props.filterMap (fun p =>
    match p.2 with
    | .int n => some ((n : ℚ))
    | .float q => some q
    | .bool b => some (if b then 1 else 0)
    | .str _ => none)

/-- A node dict appended by `_get_subgraph`: `{"id": node.id, "features": ...}`. -/
structure NodeEntry where
  id : Nat
  features : List ℚ
  deriving DecidableEq, Repr

/-- An edge dict appended by `_get_subgraph`:
`{"source": ..., "target": ..., "type": ...}`. -/
structure EdgeEntry where
  source : Nat
  target : Nat
  type : String
  deriving DecidableEq, Repr

/-- A path record returned by the Neo4j session: the nodes and
relationships along one matched path. -/
structure PathRec where
  nodes : List NodeRec
  relationships : List RelRec
  deriving DecidableEq, Repr

/-- Inner loop of `_get_subgraph` over `path.nodes`: a node whose internal
id is already in `seen_nodes` is skipped, otherwise its entry is appended
and the id marked seen. -/
def addNodes (seen : List Nat) (acc : List NodeEntry) :
    List NodeRec → List Nat × List NodeEntry
  | [] => (seen, acc)
  | n :: ns =>
    if n.nid ∈ seen then addNodes seen acc ns
    else addNodes (n.nid :: seen) (acc ++ [⟨n.nid, extract_node_features n⟩]) ns

/-- Inner loop of `_get_subgraph` over `path.relationships`: the dedup key
is the `(start_node.id, end_node.id)` pair; the relationship type is not
part of the key. -/
def addEdges (seen : List (Nat × Nat)) (acc : List EdgeEntry) :
    List RelRec → List (Nat × Nat) × List EdgeEntry
  | [] => (seen, acc)
  | r :: rs =>
    if (r.startNid, r.endNid) ∈ seen then addEdges seen acc rs
    else addEdges ((r.startNid, r.endNid) :: seen)
      (acc ++ [⟨r.startNid, r.endNid, r.relType⟩]) rs

/-- Outer loop of `_get_subgraph` over the query's records. -/
def collectRecords (seenN : List Nat) (seenE : List (Nat × Nat))
    (accN : List NodeEntry) (accE : List EdgeEntry) :
    List PathRec → List NodeEntry × List EdgeEntry
  | [] => (accN, accE)
  | p :: ps =>
    collectRecords (addNodes seenN accN p.nodes).1
      (addEdges seenE accE p.relationships).1
      (addNodes seenN accN p.nodes).2
      (addEdges seenE accE p.relationships).2 ps

/-- The `(start:Transaction {id: $node_id})` part of the subgraph query:
nodes labelled `Transaction` whose `id` property equals the argument. -/
def startNodes (s : Store) (node_id : String) : List NodeRec :=
  s.nodes.filter (fun n =>
    n.labels.contains "Transaction" &&
    n.props.lookup "id" == some (PropVal.str node_id))

/-- The endpoint of `r` other than `nid` (the query pattern is undirected). -/
def otherEnd (r : RelRec) (nid : Nat) : Nat :=
  if r.startNid = nid then r.endNid else r.startNid

/-- Whether relationship `r` touches node `nid`. -/
def incident (r : RelRec) (nid : Nat) : Bool :=
  r.startNid == nid || r.endNid == nid

/-- First node of the store with the given internal id. -/
def findNode (s : Store) (nid : Nat) : Option NodeRec :=
  s.nodes.find? (fun n => n.nid == nid)

/-- One-relationship extensions of a partial path ending at `last`,
reusing no relationship already on the path (Cypher path semantics). -/
def extendPath (s : Store) (p : PathRec) (last : Nat) : List (PathRec × Nat) :=
  (s.rels.filter (fun r => incident r last && !(p.relationships.contains r))).filterMap
    (fun r => (findNode s (otherEnd r last)).map
      (fun n => (⟨p.nodes ++ [n], p.relationships ++ [r]⟩, n.nid)))

/-- All continuations of a partial path by 1..depth further relationships. -/
def pathsFrom (s : Store) : Nat → PathRec → Nat → List PathRec
  | 0, _, _ => []
  | d + 1, p, last =>
    (extendPath s p last).flatMap (fun q => q.1 :: pathsFrom s d q.1 q.2)

/-- Records returned by the bounded-depth query
`MATCH path = (start:Transaction {id: $node_id})-[*1..$depth]-(related)`:
one record per path of length 1..depth from a matching start node. -/
def matchPaths (s : Store) (node_id : String) (depth : Nat) : List PathRec :=
  (startNodes s node_id).flatMap (fun n => pathsFrom s depth ⟨[n], []⟩ n.nid)

/-- `GraphRAG._get_subgraph`: run the query and fold its records through
the dedup loops. -/
def get_subgraph (s : Store) (node_id : String) (depth : Nat) :
    List NodeEntry × List EdgeEntry :=
  collectRecords [] [] [] [] (matchPaths s node_id depth)

/-- Errors raised by the torch layer of the pipeline. -/
inductive TorchError where
  | raggedTensor
  | shapeMismatch
  | indexError
  deriving DecidableEq, Repr

/-- A torch tensor of floats as the pipeline builds them: `torch.tensor`
applied to an empty Python list yields an empty 1-D tensor, and to a
non-empty list of rows a 2-D tensor. -/
inductive QTensor where
  | vec (v : List ℚ)
  | mat (rows : List (List ℚ))
  deriving DecidableEq, Repr

/-- `torch.tensor(rows)`: an empty list gives an empty 1-D tensor; ragged
rows raise a ValueError. -/
def torchTensor2 (rows : List (List ℚ)) : Except TorchError QTensor :=
  match rows with
  | [] => .ok (.vec [])
  | r :: rs =>
    if rs.all (fun r2 => r2.length == r.length) then .ok (.mat (r :: rs))
    else .error .raggedTensor

/-- The edge-index tensor after `.t().contiguous()`: transposing an empty
1-D tensor leaves it 1-D; a non-empty `E × 2` tensor becomes `2 × E`,
represented here by its list of (source, target) columns. -/
inductive EdgeIndexT where
  | empty1d
  | pairs (ps : List (Nat × Nat))
  deriving DecidableEq, Repr

/-- The (source, target) columns of an edge-index tensor. -/
def edgeIndexPairs : EdgeIndexT → List (Nat × Nat)
  | .empty1d => []
  | .pairs ps => ps

/-- `torch.tensor([[e.source, e.target] for e in edges]).t().contiguous()`. -/
def torchEdgeTensor (prs : List (Nat × Nat)) : EdgeIndexT :=
  match prs with
  | [] => .empty1d
  | ps => .pairs ps

/-- The PyTorch Geometric `Data` object as `_create_graph_data` builds it
(`batch` is never set, so `data.batch` is `None`). -/
structure Data where
  x : QTensor
  edge_index : EdgeIndexT
  y : Option (List Int)
  deriving DecidableEq, Repr

/-- `x.size(0)`: the number of node rows of the tensor. -/
def QTensor.size0 : QTensor → Nat
  | .vec v => v.length
  | .mat rows => rows.length

/-- `GraphRAG._create_graph_data`: node features and edge indices are
converted to tensors exactly as given — each edge contributes the pair
`(edge["source"], edge["target"])` unchanged — and
`y = torch.tensor(labels) if labels else None`, so `None` and the empty
list both yield no label vector.  No node-to-row translation and no
validation of edge endpoints or label length takes place. -/
def create_graph_data (nodes : List NodeEntry) (edges : List EdgeEntry)
    (labels : Option (List Int)) : Except TorchError Data :=
  match torchTensor2 (nodes.map (fun n => n.features)) with
  | .error e => .error e
  | .ok x =>
    .ok ⟨x, torchEdgeTensor (edges.map (fun e => (e.source, e.target))),
      match labels with
      | some (a :: as) => some (a :: as)
      | _ => none⟩

/-- `GraphRAG.retrieve_context`: fetch the subgraph and build the tensor
with no labels. -/
def retrieve_context (s : Store) (transaction_id : String) (depth : Nat) :
    Except TorchError Data :=
  let ne := get_subgraph s transaction_id depth
  create_graph_data ne.1 ne.2 none

/-- Parameters of an `nn.Linear` layer: `weight` is `outDim × inDim`. -/
structure LinearP where
  weight : List (List ℚ)
  bias : List ℚ
  deriving DecidableEq, Repr

/-- Parameters of a `GCNConv` layer: the internal (bias-free) linear
transform plus the layer bias added after aggregation. -/
structure GCNConvP where
  weight : List (List ℚ)
  bias : List ℚ
  deriving DecidableEq, Repr

/-- Dot product of two rational vectors. -/
def dotQ (a b : List ℚ) : ℚ := (List.zipWith (fun x y => x * y) a b).sum

/-- Shape check for applying a weight matrix to a length-`n` vector. -/
def linOk (W : List (List ℚ)) (n : Nat) : Bool := W.all (fun r => r.length == n)

/-- One row through `nn.Linear`: `W·v + b`. -/
def linearRow (p : LinearP) (v : List ℚ) : List ℚ :=
  List.zipWith (fun wr b => dotQ wr v + b) p.weight p.bias

/-- `nn.Linear` on a tensor; a 1-D input whose length does not match the
weight's input dimension raises the torch matmul shape error (this is what
an empty node list produces: `torch.tensor([])` is 1-D of size 0). -/
def linearApply (p : LinearP) : QTensor → Except TorchError QTensor
  | .vec v =>
    if linOk p.weight v.length then .ok (.vec (linearRow p v))
    else .error .shapeMismatch
  | .mat rows =>
    if rows.all (fun r => linOk p.weight r.length) then
      .ok (.mat (rows.map (linearRow p)))
    else .error .shapeMismatch

/-- One row through the bias-free linear transform inside `GCNConv`. -/
def linNoBiasRow (W : List (List ℚ)) (v : List ℚ) : List ℚ :=
  W.map (fun wr => dotQ wr v)

/-- The bias-free linear transform inside `GCNConv`, with the same torch
shape discipline as `linearApply`. -/
def linNoBiasApply (W : List (List ℚ)) : QTensor → Except TorchError QTensor
  | .vec v =>
    if linOk W v.length then .ok (.vec (linNoBiasRow W v))
    else .error .shapeMismatch
  | .mat rows =>
    if rows.all (fun r => linOk W r.length) then
      .ok (.mat (rows.map (linNoBiasRow W)))
    else .error .shapeMismatch

/-- The torch / torch-geometric library numerics the repository calls but
does not implement: the degree-normalised GCN aggregation (its
coefficients involve square roots), `torch.sigmoid`, and the random
training-mode dropout masks.  Every theorem below holds for all
instantiations of these. -/
structure TorchLib where
  agg : List (List ℚ) → EdgeIndexT → List (List ℚ)
  sig : ℚ → ℚ
  dropMask : ℚ → List (List ℚ) → List (List ℚ)
  dropMaskV : ℚ → List ℚ → List ℚ

/-- `F.relu`, elementwise. -/
def reluT : QTensor → QTensor
  | .vec v => .vec (v.map (fun q => max q 0))
  | .mat rows => .mat (rows.map (fun r => r.map (fun q => max q 0)))

/-- `F.dropout(x, p, training=...)`: the identity when `training` is
false, a library-supplied random mask otherwise. -/
def dropoutT (lib : TorchLib) (training : Bool) (p : ℚ) (t : QTensor) : QTensor :=
  if training then
    match t with
    | .vec v => .vec (lib.dropMaskV p v)
    | .mat rows => .mat (lib.dropMask p rows)
  else t

/-- Broadcast addition of a layer bias. -/
def addBias (b : List ℚ) : QTensor → QTensor
  | .vec v => .vec (List.zipWith (fun x y => x + y) v b)
  | .mat rows => .mat (rows.map (fun r => List.zipWith (fun x y => x + y) r b))

/-- One `GCNConv` application: internal linear transform, message-passing
aggregation over the edge index, then the layer bias. -/
def convApply (lib : TorchLib) (c : GCNConvP) (x : QTensor) (ei : EdgeIndexT) :
    Except TorchError QTensor :=
  match linNoBiasApply c.weight x with
  | .error e => .error e
  | .ok (.mat rows) => .ok (addBias c.bias (.mat (lib.agg rows ei)))
  | .ok (.vec v) => .ok (addBias c.bias (.vec v))

/-- Componentwise sum of rows. -/
def sumRows : List (List ℚ) → List ℚ
  | [] => []
  | [r] => r
  | r :: rs => List.zipWith (fun x y => x + y) r (sumRows rs)

/-- `global_mean_pool(x, None)`: the mean over the node dimension, kept as
a single row. -/
def global_mean_pool : QTensor → QTensor
  | .mat rows => .mat [(sumRows rows).map (fun q => q / (rows.length : ℚ))]
  | .vec v => .vec [v.sum / (v.length : ℚ)]

/-- `torch.sigmoid`, elementwise via the library function. -/
def sigmoidT (lib : TorchLib) : QTensor → QTensor
  | .vec v => .vec (v.map lib.sig)
  | .mat rows => .mat (rows.map (fun r => r.map lib.sig))

/-- The `FraudGNN` module state: conv layers, the two fully-connected
layers, the dropout rate and the train/eval mode flag. -/
structure FraudGNN where
  conv_layers : List GCNConvP
  fc1 : LinearP
  fc2 : LinearP
  dropout : ℚ
  training : Bool
  deriving DecidableEq, Repr

/-- The `for conv in self.conv_layers` loop of `FraudGNN.forward`: conv,
relu, dropout, in order. -/
def convsFold (lib : TorchLib) (training : Bool) (p : ℚ) :
    List GCNConvP → QTensor → EdgeIndexT → Except TorchError QTensor
  | [], x, _ => .ok x
  | c :: cs, x, ei =>
    match convApply lib c x ei with
    | .error e => .error e
    | .ok y => convsFold lib training p cs (dropoutT lib training p (reluT y)) ei

/-- `FraudGNN.forward`: conv stack, mean pooling, `relu(fc1)`, dropout,
`fc2`, sigmoid. -/
def FraudGNN.forward (lib : TorchLib) (m : FraudGNN) (d : Data) :
    Except TorchError QTensor :=
  match convsFold lib m.training m.dropout m.conv_layers d.x d.edge_index with
  | .error e => .error e
  | .ok x1 =>
    match linearApply m.fc1 (global_mean_pool x1) with
    | .error e => .error e
    | .ok x2 =>
      match linearApply m.fc2 (dropoutT lib m.training m.dropout (reluT x2)) with
      | .error e => .error e
      | .ok x3 => .ok (sigmoidT lib x3)

/-- `(probabilities > threshold).float()`, elementwise. -/
def toPredictions (threshold : ℚ) : QTensor → QTensor
  | .vec v => .vec (v.map (fun q => if threshold < q then (1 : ℚ) else 0))
  | .mat rows => .mat (rows.map (fun r => r.map (fun q => if threshold < q then (1 : ℚ) else 0)))

/-- `FraudGNN.predict`: `self.eval()` first (this mutates the module's
mode flag and is not undone), then a no-grad forward pass.  The second
component is the module state after the call; it is returned even when
the forward pass raises, since `self.eval()` has already happened. -/
def FraudGNN.predict (lib : TorchLib) (m : FraudGNN) (d : Data) (threshold : ℚ) :
    Except TorchError (QTensor × QTensor) × FraudGNN :=
  (match FraudGNN.forward lib { m with training := false } d with
   | .error e => .error e
   | .ok probs => .ok (probs, toPredictions threshold probs),
   { m with training := false })

/-- The serialized parameter blob `self.model.state_dict()` captures:
layer weights and biases, keyed by layer — not the dropout rate and not
the mode flag. -/
structure StateDict where
  convs : List GCNConvP
  fc1 : LinearP
  fc2 : LinearP
  deriving DecidableEq, Repr

/-- `FraudDetector.save_model`: `torch.save(self.model.state_dict(), path)`;
`torch.save`/`torch.load` round-trip the blob exactly. -/
def FraudDetector.save_model (m : FraudGNN) : StateDict :=
  ⟨m.conv_layers, m.fc1, m.fc2⟩

/-- The parameter shapes of a state dict, used by `load_state_dict`'s
strict key/shape check. -/
def StateDict.shapes (sd : StateDict) :
    List ((Nat × Nat) × Nat) × ((Nat × Nat) × Nat) × ((Nat × Nat) × Nat) :=
  (sd.convs.map (fun c => ((c.weight.length, (c.weight.headD []).length), c.bias.length)),
   ((sd.fc1.weight.length, (sd.fc1.weight.headD []).length), sd.fc1.bias.length),
   ((sd.fc2.weight.length, (sd.fc2.weight.headD []).length), sd.fc2.bias.length))

/-- `FraudDetector.load_model`: `self.model.load_state_dict(torch.load(path))`.
`load_state_dict` (strict) raises unless keys and shapes match the
receiving architecture; on success it replaces every parameter. -/
def FraudDetector.load_model (m : FraudGNN) (sd : StateDict) :
    Except TorchError FraudGNN :=
  if StateDict.shapes (FraudDetector.save_model m) = sd.shapes then
    .ok { m with conv_layers := sd.convs, fc1 := sd.fc1, fc2 := sd.fc2 }
  else .error .shapeMismatch

/-- A Python float as the training loop sees loss values. -/
inductive FVal where
  | fin (q : ℚ)
  | nan
  | inf
  | ninf
  deriving DecidableEq, Repr

/-- IEEE-style addition on loss values (`total_loss += loss.item()`). -/
def FVal.add : FVal → FVal → FVal
  | .nan, _ => .nan
  | _, .nan => .nan
  | .inf, .ninf => .nan
  | .ninf, .inf => .nan
  | .inf, _ => .inf
  | _, .inf => .inf
  | .ninf, _ => .ninf
  | _, .ninf => .ninf
  | .fin a, .fin b => .fin (a + b)

/-- Finiteness of a loss value. -/
def FVal.isFinite : FVal → Bool
  | .fin _ => true
  | _ => false

/-- Errors the training loop can raise. -/
inductive TrainError where
  | zeroDivision
  deriving DecidableEq, Repr

/-- Python division `total_loss / len(train_data)`: raises
`ZeroDivisionError` on a zero denominator, whatever the numerator. -/
def FVal.divNat : FVal → Nat → Except TrainError FVal
  | _, 0 => .error .zeroDivision
  | .fin a, n => .ok (.fin (a / (n : ℚ)))
  | .nan, _ => .ok .nan
  | .inf, _ => .ok .inf
  | .ninf, _ => .ok .ninf

/-- The inner `for batch in train_data` loop of `FraudDetector.train`.
One `step` is `zero_grad` + forward + BCE loss + backward +
`optimizer.step()`, an opaque update of the model/optimizer state `σ`
returning the loss scalar; the loop applies it to every example
unconditionally and accumulates the loss. -/
def trainEpoch {σ : Type} (step : σ → Data → σ × FVal) :
    σ → FVal → List Data → σ × FVal
  | s, total, [] => (s, total)
  | s, total, b :: bs =>
    let r := step s b
    trainEpoch step r.1 (FVal.add total r.2) bs

/-- `FraudDetector.train`: for each epoch run the example loop, then
compute `avg_loss = total_loss / len(train_data)`.  There is no check on
the loss value anywhere; the only way the loop aborts is the division by
`len(train_data)` when the example list is empty. -/
def FraudDetector.train {σ : Type} (step : σ → Data → σ × FVal)
    (train_data : List Data) : Nat → σ → Except TrainError (σ × List FVal)
  | 0, s => .ok (s, [])
  | e + 1, s =>
    match (trainEpoch step s (.fin 0) train_data).2.divNat train_data.length with
    | .error err => .error err
    | .ok avg =>
      match FraudDetector.train step train_data e
          (trainEpoch step s (.fin 0) train_data).1 with
      | .error err => .error err
      | .ok rest => .ok (rest.1, avg :: rest.2)

/-- A relationship message passed to `update_graph`
(`{"related_id": ..., "properties": ...}`). -/
structure RelMsg where
  related_id : String
  properties : List (String × PropVal)
  deriving DecidableEq, Repr

/-- The Cypher predicate `{id: rel.related_id}` on a node. -/
def nodeIdMatches (idv : String) (n : NodeRec) : Bool :=
  n.props.lookup "id" == some (PropVal.str idv)

/-- `GraphRAG.update_graph`, the Cypher
`CREATE (t:Transaction $transaction_data) WITH t UNWIND $relationships as
rel MATCH (related {id: rel.related_id}) CREATE (t)-[r:CONNECTED_TO]->
(related) SET r += rel.properties`:
the transaction node is created first; each relationship row then matches
nodes by `id` property (any label, including the node just created) — a
row whose `MATCH` finds nothing is filtered out, creating no edge and
raising nothing, while the `CREATE` of `t` stands.  Every created edge
has relationship type `CONNECTED_TO`; the declared properties are merged
onto it. -/
def GraphRAG.update_graph (s : Store) (freshNid : Nat)
    (transaction_data : List (String × PropVal))
    (relationships : List RelMsg) : Store :=
  ⟨s.nodes ++ [NodeRec.mk freshNid ["Transaction"] transaction_data],
   s.rels ++ relationships.flatMap (fun rel =>
     ((s.nodes ++ [NodeRec.mk freshNid ["Transaction"] transaction_data]).filter
       (nodeIdMatches rel.related_id)).map
       (fun n => RelRec.mk freshNid n.nid "CONNECTED_TO" rel.properties))⟩

/-- The context dict assembled by `_get_explanation_context`; `none`
models the `{}` returned when the transaction is not found. -/
structure ExplanationContext where
  transaction : List (String × PropVal)
  user : Option (List (String × PropVal))
  related_transactions : List (List (String × PropVal))
  deriving DecidableEq, Repr

/-- `GraphRAG._get_explanation_context`: the shallow 1-hop lookup of the
owning user (`BELONGS_TO`) and directly related transactions
(`CONNECTED_TO`). -/
def GraphRAG.get_explanation_context (s : Store) (transaction_id : String) :
    Option ExplanationContext :=
  match s.nodes.find? (fun n =>
      n.labels.contains "Transaction" && nodeIdMatches transaction_id n) with
  | none => none
  | some t =>
    let userNode := (s.rels.filterMap (fun r =>
      if r.startNid == t.nid && r.relType == "BELONGS_TO" then
        (findNode s r.endNid).bind
          (fun n => if n.labels.contains "User" then some n else none)
      else none)).head?
    let related := s.rels.filterMap (fun r =>
      if r.startNid == t.nid && r.relType == "CONNECTED_TO" then
        (findNode s r.endNid).bind
          (fun n => if n.labels.contains "Transaction" then some n.props else none)
      else none)
    some ⟨t.props, userNode.map (fun n => n.props), related⟩

/-- The dict returned by `GraphRAG.predict_fraud`. -/
structure FraudResult where
  transaction_id : String
  fraud_probability : ℚ
  is_fraudulent : Bool
  context : Option ExplanationContext
  deriving DecidableEq, Repr

/-- `float(tensor[0])`: index the first row, then convert the
single-element result to a Python float. -/
def tensorFloatAt0 : QTensor → Except TorchError ℚ
  | .vec [] => .error .indexError
  | .vec (a :: _) => .ok a
  | .mat [] => .error .indexError
  | .mat (r :: _) =>
    match r with
    | [a] => .ok a
    | _ => .error .shapeMismatch

/-- `GraphRAG.predict_fraud`: retrieve context at depth 2, run the model's
`predict`, read off `probabilities[0]` / `predictions[0]`, then fetch the
explanation context. -/
def GraphRAG.predict_fraud (lib : TorchLib) (s : Store) (m : FraudGNN)
    (transaction_id : String) (threshold : ℚ) : Except TorchError FraudResult :=
  match retrieve_context s transaction_id 2 with
  | .error e => .error e
  | .ok graph_data =>
    match (FraudGNN.predict lib m graph_data threshold).1 with
    | .error e => .error e
    | .ok pp =>
      match tensorFloatAt0 pp.1 with
      | .error e => .error e
      | .ok p0 =>
        match tensorFloatAt0 pp.2 with
        | .error e => .error e
        | .ok q0 =>
          .ok ⟨transaction_id, p0, q0 != 0,
            GraphRAG.get_explanation_context s transaction_id⟩

/-! Concrete instances used by counterexamples and witnesses. -/

/-- A trivial instantiation of the library numerics. -/
def idLib : TorchLib :=
  ⟨fun rows _ => rows, fun q => q, fun _ rows => rows, fun _ v => v⟩

/-- The node list of a one-node subgraph whose graph-native id is 5. -/
def c1nodes : List NodeEntry := [⟨5, [1]⟩]

/-- A self-edge on the node with graph-native id 5. -/
def c1edges : List EdgeEntry := [⟨5, 5, "CONNECTED_TO"⟩]

/-- An edge whose target id 7 appears in no node of `c1nodes`. -/
def c1danglingEdges : List EdgeEntry := [⟨5, 7, "CONNECTED_TO"⟩]

/-- Two nodes to pair with a length-1 label list. -/
def c7nodes : List NodeEntry := [⟨0, [1]⟩, ⟨1, [2]⟩]

/-- A store holding a single user node `U1`. -/
def c3store : Store := ⟨[⟨0, ["User"], [("id", .str "U1")]⟩], []⟩

/-- Properties of a new transaction `T9`. -/
def c3txProps : List (String × PropVal) := [("id", .str "T9")]

/-- A relationship whose target id matches no node in the store. -/
def c3relMissing : RelMsg := ⟨"MISSING", [("type", .str "BELONGS_TO")]⟩

/-- A relationship to the existing user `U1` declared as `BELONGS_TO` in
its properties, as `routes.predict_fraud` builds it. -/
def c9rel : RelMsg := ⟨"U1", [("type", .str "BELONGS_TO")]⟩

/-- The edge `update_graph` actually writes for `c9rel`. -/
def c9edge : RelRec := ⟨7, 0, "CONNECTED_TO", [("type", .str "BELONGS_TO")]⟩

/-- The node entry a retrieved node record becomes. -/
def mkNodeEntry (n : NodeRec) : NodeEntry := ⟨n.nid, extract_node_features n⟩

/-- The edge entry a retrieved relationship record becomes. -/
def mkEdgeEntry (r : RelRec) : EdgeEntry := ⟨r.startNid, r.endNid, r.relType⟩

/-- The dedup key `_get_subgraph` uses for edges: the ordered endpoint
pair, with the relationship type deliberately absent. -/
def edgeKey (r : RelRec) : Nat × Nat := (r.startNid, r.endNid)

/-- Specification-side first-occurrence filter: drop every element whose
key was already seen, returning the final seen set and the survivors in
order. -/
def firstOccAux {α κ : Type} [DecidableEq κ] (key : α → κ) :
    List κ → List α → List κ × List α
  | seen, [] => (seen, [])
  | seen, a :: as =>
    if key a ∈ seen then firstOccAux key seen as
    else
      ((firstOccAux key (key a :: seen) as).1,
       a :: (firstOccAux key (key a :: seen) as).2)

/-- Specification-side dedup: keep only the first occurrence of each key,
in input order. -/
def firstOccBy {α κ : Type} [DecidableEq κ] (key : α → κ) (l : List α) : List α :=
  (firstOccAux key [] l).2

/-- Total form of the per-epoch mean loss for a non-empty example list. -/
def fvalDivPos : FVal → Nat → FVal
  | .fin a, n => .fin (a / (n : ℚ))
  | .nan, _ => .nan
  | .inf, _ => .inf
  | .ninf, _ => .ninf

/-- The abort-free run the training loop performs on non-empty data: the
state after applying one optimizer step per example per epoch, with the
per-epoch mean losses. -/
def trainRun {σ : Type} (step : σ → Data → σ × FVal) (train_data : List Data) :
    Nat → σ → σ × List FVal
  | 0, s => (s, [])
  | e + 1, s =>
    ((trainRun step train_data e (trainEpoch step s (.fin 0) train_data).1).1,
     fvalDivPos (trainEpoch step s (.fin 0) train_data).2 train_data.length ::
       (trainRun step train_data e (trainEpoch step s (.fin 0) train_data).1).2)

/-- A one-dimensional model instance (all dims 1), in training mode. -/
def demoModel : FraudGNN := ⟨[⟨[[1]], [0]⟩], ⟨[[1]], [0]⟩, ⟨[[1]], [0]⟩, 1/5, true⟩

/-- A one-node, one-self-loop graph tensor for the demo model. -/
def demoData : Data := ⟨.mat [[2]], .pairs [(0, 0)], none⟩

/-- A model with the same parameter shapes as `demoModel` but different
parameter values, dropout rate and mode flag. -/
def c8m2 : FraudGNN := ⟨[⟨[[3]], [1]⟩], ⟨[[2]], [1]⟩, ⟨[[4]], [2]⟩, 1/2, false⟩

/-- A training step whose first example produces a non-finite loss; the
state counts applied optimizer steps. -/
def c6step (n : Nat) (_ : Data) : Nat × FVal :=
  (n + 1, if n == 0 then FVal.nan else FVal.fin 1)

/-- Two paths that reach the same ordered node pair (1, 2) through
relationships of different types. -/
def c4records : List PathRec :=
  [⟨[], [⟨1, 2, "BELONGS_TO", []⟩]⟩, ⟨[], [⟨1, 2, "CONNECTED_TO", []⟩]⟩]

end FraudGraph

namespace FraudGraph

/-! Helper lemmas. -/

theorem edgeIndexPairs_torchEdgeTensor (prs : List (Nat × Nat)) :
    edgeIndexPairs (torchEdgeTensor prs) = prs := by
  cases prs <;> rfl

theorem torchTensor2_error (rows : List (List ℚ)) (e : TorchError)
    (h : torchTensor2 rows = Except.error e) : e = TorchError.raggedTensor := by
  cases rows with
  | nil => simp [torchTensor2] at h
  | cons r rs =>
    by_cases hc : rs.all (fun r2 => r2.length == r.length)
    · simp [torchTensor2, hc] at h
    · simp [torchTensor2, hc] at h
      exact h.symm

/-! C1 -/

/-- C1: the claim that every edge-index value of a built tensor is a valid
row index and that an edge referencing an absent node raises
`MissingNodeError` is false: `_create_graph_data` copies the raw graph
ids into the edge index.  Here a build over one node (graph id 5) with a
self-edge succeeds and produces index 5 with only 1 node row, and a build
whose edge targets the absent node 7 also succeeds without any error. -/
theorem C1_counterexample :
    create_graph_data c1nodes c1edges none =
      Except.ok ⟨QTensor.mat [[1]], EdgeIndexT.pairs [(5, 5)], none⟩ ∧
    ¬ ((5 : Nat) < (QTensor.mat [[(1 : ℚ)]]).size0) ∧
    create_graph_data c1nodes c1danglingEdges none =
      Except.ok ⟨QTensor.mat [[1]], EdgeIndexT.pairs [(5, 7)], none⟩ := by
  refine ⟨rfl, by decide, rfl⟩

/-- C1 (amended): `_create_graph_data` performs no node-to-row translation
and no endpoint validation: whenever the build succeeds, the edge-index
pairs are exactly the raw `(source, target)` graph identifiers of the
given edges, and the only error the build can raise is the ragged
feature-row error — never a missing-node error. -/
theorem C1_edge_index_is_raw_ids (nodes : List NodeEntry) (edges : List EdgeEntry)
    (labels : Option (List Int)) :
    (∀ d, create_graph_data nodes edges labels = Except.ok d →
      edgeIndexPairs d.edge_index = edges.map (fun e => (e.source, e.target))) ∧
    (∀ err, create_graph_data nodes edges labels = Except.error err →
      err = TorchError.raggedTensor) := by
  constructor
  · intro d h
    unfold create_graph_data at h
    split at h
    · exact Except.noConfusion h
    · injection h with h2
      rw [← h2]
      exact edgeIndexPairs_torchEdgeTensor _
  · intro err h
    unfold create_graph_data at h
    split at h
    · next e heq =>
        injection h with h2
        rw [← h2]
        exact torchTensor2_error _ _ heq
    · exact Except.noConfusion h

/-- Witness for C1 (amended) at the concrete one-node build. -/
theorem C1_witness :
    edgeIndexPairs (Data.mk (QTensor.mat [[(1 : ℚ)]])
      (EdgeIndexT.pairs [(5, 5)]) none).edge_index =
      c1edges.map (fun e => (e.source, e.target)) :=
  (C1_edge_index_is_raw_ids c1nodes c1edges none).1 _ rfl

/-! C7 -/

/-- C7: the claim that a labels sequence whose length differs from the
node count raises `LabelMismatchError` is false: a build over two nodes
with a single label succeeds and carries the misaligned label vector. -/
theorem C7_counterexample :
    create_graph_data c7nodes [] (some [1]) =
      Except.ok ⟨QTensor.mat [[1], [2]], EdgeIndexT.empty1d, some [1]⟩ ∧
    ([1] : List Int).length ≠ c7nodes.length := by
  exact ⟨rfl, by decide⟩

/-- C7 (amended): `_create_graph_data` never validates the label length:
whenever the build succeeds, a non-empty labels list is stored as the
label vector unchanged, however many nodes there are, and an empty labels
list is treated like an absent one (`y = torch.tensor(labels) if labels
else None`). -/
theorem C7_labels_unchecked (nodes : List NodeEntry) (edges : List EdgeEntry)
    (labels : List Int) (d : Data)
    (h : create_graph_data nodes edges (some labels) = Except.ok d) :
    (labels ≠ [] → d.y = some labels) ∧ (labels = [] → d.y = none) := by
  unfold create_graph_data at h
  split at h
  · exact Except.noConfusion h
  · injection h with h2
    cases labels with
    | nil =>
      refine ⟨fun hc => absurd rfl hc, fun _ => ?_⟩
      rw [← h2]
    | cons a as =>
      refine ⟨fun _ => ?_, fun hc => List.noConfusion hc⟩
      rw [← h2]

/-- Witness for C7 (amended): the misaligned single label is kept. -/
theorem C7_witness :
    (([1] : List Int) ≠ [] →
      (Data.mk (QTensor.mat [[1], [2]]) EdgeIndexT.empty1d
        (some [1])).y = some [1]) ∧
    (([1] : List Int) = [] →
      (Data.mk (QTensor.mat [[1], [2]]) EdgeIndexT.empty1d
        (some [1])).y = none) :=
  C7_labels_unchecked c7nodes [] [1] _ rfl

/-! C3 -/

/-- C3: the claim that `update_graph` with a dangling relationship target
raises `DanglingReferenceError` and leaves the store unchanged is false:
on a store holding only `U1`, writing `T9` with a relationship to the
absent id `MISSING` completes (the embedded operation is total — the
Cypher `MATCH` merely filters the row), the `T9` node appears in the
store afterwards, and no edge is written. -/
theorem C3_counterexample :
    (GraphRAG.update_graph c3store 7 c3txProps [c3relMissing]).nodes =
      c3store.nodes ++ [⟨7, ["Transaction"], c3txProps⟩] ∧
    (GraphRAG.update_graph c3store 7 c3txProps [c3relMissing]).rels = [] := by
  constructor <;> rfl

/-- C3 (amended): when every declared relationship target id matches no
node (neither a pre-existing node nor the transaction node being
created), `update_graph` neither raises nor rolls back: it writes the new
transaction node and silently writes no edge at all. -/
theorem C3_dangling_writes_node (s : Store) (freshNid : Nat)
    (tx : List (String × PropVal)) (rels : List RelMsg)
    (h : ∀ rel ∈ rels, ∀ n ∈ s.nodes ++ [⟨freshNid, ["Transaction"], tx⟩],
      nodeIdMatches rel.related_id n = false) :
    GraphRAG.update_graph s freshNid tx rels =
      ⟨s.nodes ++ [⟨freshNid, ["Transaction"], tx⟩], s.rels⟩ := by
  have hnil : (rels.flatMap (fun rel =>
      ((s.nodes ++ [NodeRec.mk freshNid ["Transaction"] tx]).filter
        (nodeIdMatches rel.related_id)).map
        (fun n => RelRec.mk freshNid n.nid "CONNECTED_TO" rel.properties))) = [] := by
    rw [List.flatMap_eq_nil_iff]
    intro rel hrel
    rw [List.map_eq_nil_iff, List.filter_eq_nil_iff]
    intro n hn
    simp [h rel hrel n hn]
  unfold GraphRAG.update_graph
  rw [hnil, List.append_nil]

/-- Witness for C3 (amended) on the concrete store. -/
theorem C3_witness :
    GraphRAG.update_graph c3store 7 c3txProps [c3relMissing] =
      ⟨c3store.nodes ++ [⟨7, ["Transaction"], c3txProps⟩], c3store.rels⟩ :=
  C3_dangling_writes_node c3store 7 c3txProps [c3relMissing] (by decide)

/-! C9 -/

/-- C9: every relationship edge written by `update_graph` has graph-level
relationship type `CONNECTED_TO` — the `CREATE (t)-[r:CONNECTED_TO]->`
clause hard-codes the type, and any declared type (such as `BELONGS_TO`)
survives only as a `type` entry in the edge's property map, so
`update_graph` can never create an edge whose relationship type is
`BELONGS_TO`. -/
theorem C9_edges_always_connected_to (s : Store) (freshNid : Nat)
    (tx : List (String × PropVal)) (rels : List RelMsg) (e : RelRec)
    (h : e ∈ (GraphRAG.update_graph s freshNid tx rels).rels) :
    e ∈ s.rels ∨ (e.relType = "CONNECTED_TO" ∧ e.relType ≠ "BELONGS_TO") := by
  unfold GraphRAG.update_graph at h
  rw [List.mem_append] at h
  cases h with
  | inl h => exact Or.inl h
  | inr h =>
    right
    rw [List.mem_flatMap] at h
    obtain ⟨rel, _, hm⟩ := h
    rw [List.mem_map] at hm
    obtain ⟨n, _, he⟩ := hm
    rw [← he]
    refine ⟨rfl, ?_⟩
    show "CONNECTED_TO" ≠ "BELONGS_TO"
    decide

/-- Witness for C9: the routes-layer relationship declared `BELONGS_TO`
in its properties is written as a `CONNECTED_TO` edge. -/
theorem C9_witness :
    c9edge ∈ c3store.rels ∨
    (c9edge.relType = "CONNECTED_TO" ∧ c9edge.relType ≠ "BELONGS_TO") :=
  C9_edges_always_connected_to c3store 7 c3txProps [c9rel] c9edge (by decide)

/-! C10 -/

/-- C10: training on an empty example list raises `ZeroDivisionError` for
every `epochs ≥ 1`: the first epoch's `avg_loss = total_loss /
len(train_data)` divides by zero before any guard. -/
theorem C10_empty_training_divides_by_zero {σ : Type}
    (step : σ → Data → σ × FVal) (s0 : σ) (epochs : Nat) (h : 1 ≤ epochs) :
    FraudDetector.train step [] epochs s0 = Except.error TrainError.zeroDivision := by
  cases epochs with
  | zero => omega
  | succ e => rfl

/-- Witness for C10 at one epoch. -/
theorem C10_witness :
    FraudDetector.train (fun (s : Nat) (_ : Data) => (s + 1, FVal.nan)) [] 1 0 =
      Except.error TrainError.zeroDivision :=
  C10_empty_training_divides_by_zero _ 0 1 (by decide)

/-! C5 -/

/-- With the mode flag already false, dropout is the identity, so the
conv stack does not depend on the dropout rate. -/
theorem convsFold_false_dropout (lib : TorchLib) (p1 p2 : ℚ)
    (cs : List GCNConvP) (x : QTensor) (ei : EdgeIndexT) :
    convsFold lib false p1 cs x ei = convsFold lib false p2 cs x ei := by
  induction cs generalizing x with
  | nil => rfl
  | cons c cs ih =>
    unfold convsFold
    cases convApply lib c x ei with
    | error e => rfl
    | ok y => exact ih _

/-- The whole forward pass in eval mode does not depend on the dropout
rate. -/
theorem forward_false_dropout (lib : TorchLib) (cl : List GCNConvP)
    (f1 f2 : LinearP) (p1 p2 : ℚ) (d : Data) :
    FraudGNN.forward lib ⟨cl, f1, f2, p1, false⟩ d =
      FraudGNN.forward lib ⟨cl, f1, f2, p2, false⟩ d := by
  unfold FraudGNN.forward
  dsimp only
  rw [convsFold_false_dropout lib p1 p2]
  cases convsFold lib false p2 cl d.x d.edge_index with
  | error e => rfl
  | ok x1 =>
    cases linearApply f1 (global_mean_pool x1) with
    | error e => rfl
    | ok x2 => rfl

/-- C5: the claim that `predict` leaves every component of the model state
unchanged is false for the mode flag: `demoModel` is in training mode,
and after `predict` the module is in eval mode (`self.eval()` is never
undone). -/
theorem C5_counterexample :
    ((FraudGNN.predict idLib demoModel demoData (1 / 2)).2).training = false ∧
    demoModel.training = true := ⟨rfl, rfl⟩

/-- C5 (amended): `predict` leaves the trainable parameters and the
dropout rate unchanged and runs in inference mode — the returned
probabilities do not depend on the incoming mode flag or dropout rate —
but it is not side-effect-free on the mode flag: the module is left in
eval mode (`training = false`) whatever it was before. -/
theorem C5_predict_params_frame (lib : TorchLib) (m : FraudGNN) (d : Data)
    (threshold : ℚ) :
    ((FraudGNN.predict lib m d threshold).2.conv_layers = m.conv_layers ∧
     (FraudGNN.predict lib m d threshold).2.fc1 = m.fc1 ∧
     (FraudGNN.predict lib m d threshold).2.fc2 = m.fc2 ∧
     (FraudGNN.predict lib m d threshold).2.dropout = m.dropout) ∧
    (FraudGNN.predict lib m d threshold).2.training = false ∧
    (∀ b p, (FraudGNN.predict lib { m with training := b, dropout := p } d threshold).1 =
      (FraudGNN.predict lib m d threshold).1) := by
  refine ⟨⟨rfl, rfl, rfl, rfl⟩, rfl, fun b p => ?_⟩
  unfold FraudGNN.predict
  dsimp only
  rw [forward_false_dropout lib m.conv_layers m.fc1 m.fc2 p m.dropout d]

/-! C6 -/

/-- For a non-zero denominator, the Python division returns normally. -/
theorem divNat_pos (v : FVal) (n : Nat) (h : n ≠ 0) :
    FVal.divNat v n = Except.ok (fvalDivPos v n) := by
  cases n with
  | zero => exact absurd rfl h
  | succ k => cases v <;> rfl

/-- C6: the claim that the training loop aborts on a non-finite loss is
false: with a step whose first example yields a NaN loss, one epoch over
two examples completes normally — the final counter 2 records that an
optimizer step was applied to the second example after the NaN was
observed — and reports a NaN epoch mean instead of aborting. -/
theorem C6_counterexample :
    FraudDetector.train c6step [demoData, demoData] 1 0 =
      Except.ok (2, [FVal.nan]) ∧
    (c6step 0 demoData).2 = FVal.nan ∧
    FVal.isFinite (c6step 0 demoData).2 = false := ⟨rfl, rfl, rfl⟩

/-- C6 (amended): the training loop never inspects loss values: on any
non-empty example list it applies one optimizer step per example per
epoch and completes normally whatever the losses are, non-finite ones
included; the per-epoch means are reported as computed (possibly NaN or
infinite). -/
theorem C6_train_never_aborts {σ : Type} (step : σ → Data → σ × FVal)
    (train_data : List Data) (epochs : Nat) (s0 : σ) (h : train_data ≠ []) :
    FraudDetector.train step train_data epochs s0 =
      Except.ok (trainRun step train_data epochs s0) := by
  induction epochs generalizing s0 with
  | zero => rfl
  | succ e ih =>
    have hlen : train_data.length ≠ 0 := by
      intro hc
      exact h (List.length_eq_zero.mp hc)
    unfold FraudDetector.train
    rw [divNat_pos _ _ hlen, ih]
    rfl

/-- Witness for C6 (amended) on the NaN-producing run. -/
theorem C6_witness :
    FraudDetector.train c6step [demoData, demoData] 1 0 =
      Except.ok (trainRun c6step [demoData, demoData] 1 0) :=
  C6_train_never_aborts c6step [demoData, demoData] 1 0 (List.cons_ne_nil _ _)

/-! C8 -/

/-- C8: persistence round-trips: loading a saved state dict into a model
of the same parameter shapes succeeds and replaces the parameters, and
the reloaded model's `predict` output is identical to the original's on
every input tensor (the state dict carries every parameter `predict`
depends on; the dropout rate is irrelevant in eval mode). -/
theorem C8_save_load_roundtrip (lib : TorchLib) (m m2 : FraudGNN) (d : Data)
    (threshold : ℚ)
    (h : StateDict.shapes (FraudDetector.save_model m2) =
      StateDict.shapes (FraudDetector.save_model m)) :
    FraudDetector.load_model m2 (FraudDetector.save_model m) =
      Except.ok { m2 with conv_layers := m.conv_layers, fc1 := m.fc1, fc2 := m.fc2 } ∧
    (FraudGNN.predict lib
        { m2 with conv_layers := m.conv_layers, fc1 := m.fc1, fc2 := m.fc2 }
        d threshold).1 =
      (FraudGNN.predict lib m d threshold).1 := by
  constructor
  · unfold FraudDetector.load_model
    rw [if_pos h]
    rfl
  · unfold FraudGNN.predict
    dsimp only
    rw [forward_false_dropout lib m.conv_layers m.fc1 m.fc2 m2.dropout m.dropout d]

/-- Witness for C8: round trip between the two same-shape demo models. -/
theorem C8_witness :
    FraudDetector.load_model c8m2 (FraudDetector.save_model demoModel) =
      Except.ok
        { c8m2 with
            conv_layers := demoModel.conv_layers,
            fc1 := demoModel.fc1,
            fc2 := demoModel.fc2 } ∧
    (FraudGNN.predict idLib
        { c8m2 with
            conv_layers := demoModel.conv_layers,
            fc1 := demoModel.fc1,
            fc2 := demoModel.fc2 }
        demoData (1 / 2)).1 =
      (FraudGNN.predict idLib demoModel demoData (1 / 2)).1 :=
  C8_save_load_roundtrip idLib demoModel c8m2 demoData (1 / 2) (by decide)

/-! C2 -/

/-- C2: the first half of the claim holds — on a store with no matching
transaction node, retrieval yields an empty node set and edge set — but
the second half is false: `predict_fraud` on the unknown id does not
return a fallback result; the empty node list becomes an empty 1-D
tensor whose first linear transform fails with a shape error, so the
call raises instead. -/
theorem C2_counterexample :
    get_subgraph (Store.mk [] []) "T1" 2 = ([], []) ∧
    GraphRAG.predict_fraud idLib (Store.mk [] []) demoModel "T1" (1 / 2) =
      Except.error TorchError.shapeMismatch := ⟨rfl, rfl⟩

/-- C2 (amended): for a root id with no matching `Transaction` node, the
subgraph query matches no paths, so `_get_subgraph` returns empty node
and edge sets without error; but `predict_fraud` then builds the empty
1-D tensor, and as long as the model has a first conv layer of positive
input dimension the forward pass fails with a shape error — there is no
deterministic fallback result. -/
theorem C2_unknown_root_empty_then_shape_error (lib : TorchLib) (s : Store)
    (m : FraudGNN) (txid : String) (threshold : ℚ) (depth : Nat)
    (c : GCNConvP) (cs : List GCNConvP)
    (hroot : startNodes s txid = [])
    (hconv : m.conv_layers = c :: cs)
    (hdim : linOk c.weight 0 = false) :
    get_subgraph s txid depth = ([], []) ∧
    GraphRAG.predict_fraud lib s m txid threshold =
      Except.error TorchError.shapeMismatch := by
  have hmp : ∀ dep : Nat, matchPaths s txid dep = [] := by
    intro dep
    unfold matchPaths
    rw [hroot]
    rfl
  have hsub : get_subgraph s txid depth = ([], []) := by
    unfold get_subgraph
    rw [hmp depth]
    rfl
  refine ⟨hsub, ?_⟩
  have hrc : retrieve_context s txid 2 =
      Except.ok ⟨QTensor.vec [], EdgeIndexT.empty1d, none⟩ := by
    unfold retrieve_context get_subgraph
    rw [hmp 2]
    rfl
  have hconvApp : convApply lib c (QTensor.vec []) EdgeIndexT.empty1d =
      Except.error TorchError.shapeMismatch := by
    unfold convApply linNoBiasApply
    simp [hdim]
  have hcf : convsFold lib false m.dropout m.conv_layers (QTensor.vec [])
      EdgeIndexT.empty1d = Except.error TorchError.shapeMismatch := by
    rw [hconv]
    unfold convsFold
    rw [hconvApp]
  have hfwd : FraudGNN.forward lib { m with training := false }
      ⟨QTensor.vec [], EdgeIndexT.empty1d, none⟩ =
      Except.error TorchError.shapeMismatch := by
    unfold FraudGNN.forward
    dsimp only
    rw [hcf]
  unfold GraphRAG.predict_fraud
  rw [hrc]
  dsimp only
  unfold FraudGNN.predict
  dsimp only
  rw [hfwd]

/-- Witness for C2 (amended) on the empty store and the demo model. -/
theorem C2_witness :
    get_subgraph (Store.mk [] []) "T9" 3 = ([], []) ∧
    GraphRAG.predict_fraud idLib (Store.mk [] []) demoModel "T9" (1 / 2) =
      Except.error TorchError.shapeMismatch :=
  C2_unknown_root_empty_then_shape_error idLib (Store.mk [] []) demoModel "T9"
    (1 / 2) 3 ⟨[[1]], [0]⟩ [] rfl rfl (by decide)

/-! C4 -/

/-- Unfolding equation of `firstOccAux` on a cons cell. -/
theorem firstOccAux_cons {α κ : Type} [DecidableEq κ] (key : α → κ)
    (seen : List κ) (a : α) (as : List α) :
    firstOccAux key seen (a :: as) =
      if key a ∈ seen then firstOccAux key seen as
      else
        ((firstOccAux key (key a :: seen) as).1,
         a :: (firstOccAux key (key a :: seen) as).2) := rfl

/-- The node loop of `_get_subgraph` keeps exactly the first occurrence
of each internal node id. -/
theorem addNodes_spec (ns : List NodeRec) (seen : List Nat) (acc : List NodeEntry) :
    addNodes seen acc ns =
      ((firstOccAux NodeRec.nid seen ns).1,
       acc ++ ((firstOccAux NodeRec.nid seen ns).2).map mkNodeEntry) := by
  induction ns generalizing seen acc with
  | nil => simp [addNodes, firstOccAux]
  | cons n ns ih =>
    unfold addNodes
    rw [firstOccAux_cons]
    by_cases hm : n.nid ∈ seen
    · simp only [if_pos hm]
      exact ih seen acc
    · simp only [if_neg hm]
      rw [ih]
      simp [mkNodeEntry]

/-- The edge loop of `_get_subgraph` keeps exactly the first occurrence
of each ordered `(source, target)` endpoint pair; the relationship type
plays no role in the key. -/
theorem addEdges_spec (rs : List RelRec) (seen : List (Nat × Nat))
    (acc : List EdgeEntry) :
    addEdges seen acc rs =
      ((firstOccAux edgeKey seen rs).1,
       acc ++ ((firstOccAux edgeKey seen rs).2).map mkEdgeEntry) := by
  induction rs generalizing seen acc with
  | nil => simp [addEdges, firstOccAux]
  | cons r rs ih =>
    unfold addEdges
    rw [firstOccAux_cons]
    by_cases hm : (r.startNid, r.endNid) ∈ seen
    · simp only [edgeKey, if_pos hm]
      exact ih seen acc
    · simp only [edgeKey, if_neg hm]
      rw [ih]
      simp [mkEdgeEntry, edgeKey]

/-- The first-occurrence filter splits over list concatenation, threading
its seen set. -/
theorem firstOccAux_append {α κ : Type} [DecidableEq κ] (key : α → κ)
    (l1 l2 : List α) : ∀ seen : List κ,
    firstOccAux key seen (l1 ++ l2) =
      ((firstOccAux key (firstOccAux key seen l1).1 l2).1,
       (firstOccAux key seen l1).2 ++
         (firstOccAux key (firstOccAux key seen l1).1 l2).2) := by
  induction l1 with
  | nil => intro seen; simp [firstOccAux]
  | cons a as ih =>
    intro seen
    by_cases hm : key a ∈ seen
    · rw [List.cons_append, firstOccAux_cons, if_pos hm, firstOccAux_cons, if_pos hm]
      exact ih seen
    · rw [List.cons_append, firstOccAux_cons, if_neg hm, ih (key a :: seen),
        firstOccAux_cons, if_neg hm]
      simp

/-- The record loop of `_get_subgraph` computes, for both nodes and
edges, the mapped first-occurrence filter of the concatenated record
streams. -/
theorem collectRecords_spec (records : List PathRec) :
    ∀ (seenN : List Nat) (seenE : List (Nat × Nat))
      (accN : List NodeEntry) (accE : List EdgeEntry),
    collectRecords seenN seenE accN accE records =
      (accN ++ ((firstOccAux NodeRec.nid seenN
          (records.flatMap (fun p => p.nodes))).2).map mkNodeEntry,
       accE ++ ((firstOccAux edgeKey seenE
          (records.flatMap (fun p => p.relationships))).2).map mkEdgeEntry) := by
  induction records with
  | nil => intro seenN seenE accN accE; simp [collectRecords, firstOccAux]
  | cons p ps ih =>
    intro seenN seenE accN accE
    unfold collectRecords
    rw [addNodes_spec, addEdges_spec]
    dsimp only
    rw [ih]
    rw [List.flatMap_cons, List.flatMap_cons,
      firstOccAux_append NodeRec.nid p.nodes, firstOccAux_append edgeKey p.relationships]
    simp [List.map_append, List.append_assoc]

/-- C4: `_get_subgraph` deduplicates edges by the ordered
`(source, target)` pair only — `edgeKey` ignores the relationship type —
keeping the first edge observed in traversal order, and deduplicates
nodes by graph-native id; concretely, a `BELONGS_TO` and a
`CONNECTED_TO` edge between nodes 1 and 2 found on different paths
collapse to just the `BELONGS_TO` edge seen first. -/
theorem C4_dedup_first_seen_by_endpoint_pair (records : List PathRec)
    (s : Store) (node_id : String) (depth : Nat) :
    (collectRecords [] [] [] [] records).1 =
      (firstOccBy NodeRec.nid (records.flatMap (fun p => p.nodes))).map mkNodeEntry ∧
    (collectRecords [] [] [] [] records).2 =
      (firstOccBy edgeKey (records.flatMap (fun p => p.relationships))).map mkEdgeEntry ∧
    get_subgraph s node_id depth =
      collectRecords [] [] [] [] (matchPaths s node_id depth) ∧
    (collectRecords [] [] [] [] c4records).2 = [⟨1, 2, "BELONGS_TO"⟩] := by
  refine ⟨?_, ?_, rfl, by decide⟩
  · rw [collectRecords_spec]
    simp [firstOccBy]
  · rw [collectRecords_spec]
    simp [firstOccBy]

end FraudGraph
